import Mathlib

/-!
Verification of the PPE-compliance decision engine of
`construction_saftey/app.py` (functions `iou` and `process_image`).

The engine is shallowly embedded:
* bounding boxes are quadruples of integers (the code casts every detector
  coordinate with `map(int, box.xyxy[0])`);
* the overlap ratio `iou` is computed in exact rational arithmetic `ℚ`
  (the code uses IEEE doubles; all inputs used in concrete theorems below
  were chosen so that the double computation and the exact computation
  agree);
* Python's floor division `//` on integers is Lean's `/` on `Int`
  (both round toward minus infinity);
* Python's `int(...)` truncation of a float product `int(0.35 * h)` and
  `int((m / 3) * 100)` is modelled by exact integer division toward zero
  (`Int.tdiv`, resp. `Nat` division).  For the confidence formula the
  float and the exact computation agree for every reachable value
  `m ∈ {0,1,2,3}` (`int((0/3)*100)=0`, `33`, `66`, `100`); for the head
  limit and the compliance score they agree at every concrete input used
  below but not universally: double rounding can lower `int(0.35*h)` by
  one exactly when `35*h/100` is an integer and the rounded product
  falls below it (e.g. `h = 180`: Python 62, exact 63), and can likewise
  lower the compliance truncation by one (e.g. 50 persons with 87 passed
  checks: Python 57, exact 58).  No theorem below depends on the exact
  value at such inputs; where a conclusion is meant to transfer to the
  program, it is one that holds of both computations.

The detector, image decoding, drawing and the web routes are outside the
engine and are not modelled; `process_image` is embedded from the point
where the list of labelled boxes exists (line 43 of `app.py`) to the
returned summary dictionary (line 164).
-/

namespace ConstructionSafety

/-- An axis-aligned rectangle `(x1, y1, x2, y2)` in pixel coordinates,
as the 4-tuples used throughout `app.py`. -/
structure Box where
  x1 : Int
  y1 : Int
  x2 : Int
  y2 : Int
deriving DecidableEq, Repr

/-- The expression `(a[2] - a[0]) * (a[3] - a[1])`: the (possibly
negative) area of a box, as computed inside `iou` (`app.py` lines
33–34). -/
def area (a : Box) : Int :=
  (a.x2 - a.x1) * (a.y2 - a.y1)

/-- The expression `max(0, xB - xA) * max(0, yB - yA)`: the
intersection area used by `iou` (`app.py` lines 30–32). -/
def inter (a b : Box) : Int :=
  max 0 (min a.x2 b.x2 - max a.x1 b.x1) * max 0 (min a.y2 b.y2 - max a.y1 b.y1)

/-- The additive guard `1e-6` in the denominator of `iou`. -/
def eps : ℚ := 1 / 1000000

/-- The function `iou(a, b)` (`app.py` lines 29–35):
`inter / (areaA + areaB - inter + 1e-6)`, in exact rationals. -/
def iou (a b : Box) : ℚ :=
  (inter a b : ℚ) / ((area a : ℚ) + (area b : ℚ) - (inter a b : ℚ) + eps)

/-- The threshold test `iou(...) > 0.1` used by the vest, mask and
no-mask associations (`app.py` lines 78, 84, 89). -/
def iouGtTenth (a b : Box) : Bool :=
  decide ((1 : ℚ) / 10 < iou a b)

/-- The helmet association test for one `hardhat` item
(`app.py` lines 69–72): centroid `((hx1+hx2)//2, (hy1+hy2)//2)` (floor
division), head limit `py1 + int(0.35 * (py2 - py1))` (float product
truncated toward zero, embedded as `Int.tdiv (35 * h) 100`), and the
strict comparisons `px1 < hc_x < px2 and py1 < hc_y < head_limit`. -/
def helmetMatches (p h : Box) : Bool :=
  let hcx := (h.x1 + h.x2) / 2
  let hcy := (h.y1 + h.y2) / 2
  let headLimit := p.y1 + Int.tdiv (35 * (p.y2 - p.y1)) 100
  decide (p.x1 < hcx ∧ hcx < p.x2 ∧ p.y1 < hcy ∧ hcy < headLimit)

/-- The helmet loop (`app.py` lines 65–74): scan the PPE items, skip
non-`hardhat` labels, stop at the first geometric match. -/
def hasHelmet (p : Box) (ppe : List (String × Box)) : Bool :=
  ppe.any (fun it => it.1 == "hardhat" && helmetMatches p it.2)

/-- The vest test (`app.py` lines 77–80): any `safetyvest` item with
overlap ratio above 0.1. -/
def hasVest (p : Box) (ppe : List (String × Box)) : Bool :=
  ppe.any (fun it => it.1 == "safetyvest" && iouGtTenth p it.2)

/-- The list `mask_items = [box for lbl, box in ppe_items if lbl == "mask"]`
(`app.py` line 61). -/
def maskItems (ppe : List (String × Box)) : List Box :=
  (ppe.filter (fun it => it.1 == "mask")).map Prod.snd

/-- The test `has_mask` (`app.py` lines 83–86). -/
def hasMask (p : Box) (ppe : List (String × Box)) : Bool :=
  (maskItems ppe).any (fun b => iouGtTenth p b)

/-- The test `has_nomask` (`app.py` lines 88–91). -/
def hasNomask (p : Box) (viols : List (String × Box)) : Bool :=
  viols.any (fun it => it.1 == "nomask" && iouGtTenth p it.2)

/-- The tri-state mask status of a person. -/
inductive MaskState where
  | MASK
  | NO_MASK
  | UNKNOWN
deriving DecidableEq, Repr

/-- The tri-state decision (`app.py` lines 93–98): `NO_MASK` wins over
`MASK`, and no evidence yields `UNKNOWN`. -/
def maskStateOf (p : Box) (ppe viols : List (String × Box)) : MaskState :=
  if hasNomask p viols then MaskState.NO_MASK
  else if hasMask p ppe then MaskState.MASK
  else MaskState.UNKNOWN

/-- Per-person verdict. -/
inductive Verdict where
  | SAFE
  | UNSAFE
deriving DecidableEq, Repr

/-- The number of matched categories (`app.py` lines 113–117): helmet,
vest, and `mask_state == "MASK"` each contribute 0 or 1. -/
def matchedCategories (p : Box) (ppe viols : List (String × Box)) : Nat :=
  (if hasHelmet p ppe then 1 else 0) +
  (if hasVest p ppe then 1 else 0) +
  (if maskStateOf p ppe viols = MaskState.MASK then 1 else 0)

/-- The expression `int((confidence / 3) * 100)` (`app.py` line 118),
embedded as exact floor division; for every reachable `m ∈ {0,1,2,3}` the Python float
computation yields the same value (0, 33, 66, 100). -/
def confidenceOf (m : Nat) : Nat :=
  m * 100 / 3

/-- The record the engine derives for one person. -/
structure PersonAssessment where
  has_helmet : Bool
  has_vest : Bool
  mask_state : MaskState
  confidence : Nat
  verdict : Verdict
deriving DecidableEq, Repr

/-- One iteration of the person loop (`app.py` lines 63–127): the three
association tests, the confidence score, and the verdict
`unsafe = not has_helmet or not has_vest or mask_state != "MASK"`. -/
def assessPerson (p : Box) (ppe viols : List (String × Box)) : PersonAssessment :=
  { has_helmet := hasHelmet p ppe
    has_vest := hasVest p ppe
    mask_state := maskStateOf p ppe viols
    confidence := confidenceOf (matchedCategories p ppe viols)
    verdict :=
      if hasHelmet p ppe = false ∨ hasVest p ppe = false ∨
          maskStateOf p ppe viols ≠ MaskState.MASK then
        Verdict.UNSAFE
      else Verdict.SAFE }

/-- The six counters of the person loop (`app.py` lines 57–59). -/
structure Counts where
  helmet_yes : Nat
  helmet_no : Nat
  vest_yes : Nat
  vest_no : Nat
  mask_yes : Nat
  mask_no : Nat
deriving DecidableEq, Repr

/-- The counter updates of one loop iteration (`app.py` lines 101–110):
booleans are added as 0/1, and the mask counters split on
`mask_state == "MASK"`. -/
def stepCounts (c : Counts) (a : PersonAssessment) : Counts :=
  { helmet_yes := c.helmet_yes + (if a.has_helmet then 1 else 0)
    helmet_no := c.helmet_no + (if a.has_helmet then 0 else 1)
    vest_yes := c.vest_yes + (if a.has_vest then 1 else 0)
    vest_no := c.vest_no + (if a.has_vest then 0 else 1)
    mask_yes := c.mask_yes + (if a.mask_state = MaskState.MASK then 1 else 0)
    mask_no := c.mask_no + (if a.mask_state = MaskState.MASK then 0 else 1) }

/-- The score `compliance_score` (`app.py` lines 135–139): `0` when there are no
persons, otherwise `int(((helmet_yes + vest_yes + mask_yes) / (3 * N)) * 100)`,
embedded as exact floor division.  The Python float computation agrees
at every concrete input used below, but not at every input: double
rounding can leave the float product just under an attainable value, so
the program's truncation can land one below this exact floor (e.g.
`N = 50`, sum `87`: Python computes `int(0.58 * 100) = 57`, exact
arithmetic gives `8700 / 150 = 58`).  Accordingly the theorems below
assert only conclusions that are insensitive to that gap (the `N = 0`
case, the `[0, 100]` range, and concrete scenes where the two
computations coincide), never an exact value formula over all inputs. -/
def complianceScore (numPersons : Nat) (c : Counts) : Nat :=
  if numPersons = 0 then 0
  else (c.helmet_yes + c.vest_yes + c.mask_yes) * 100 / (3 * numPersons)

/-- Site risk tier. -/
inductive RiskLevel where
  | LOW
  | MEDIUM
  | HIGH
deriving DecidableEq, Repr

/-- The risk chain (`app.py` lines 141–149): `>= 85` is LOW, `>= 60` is
MEDIUM, otherwise HIGH, each with its fixed recommendation string. -/
def riskOf (score : Nat) : RiskLevel × String :=
  if 85 ≤ score then
    (RiskLevel.LOW, "Site is compliant. Maintain existing safety protocols.")
  else if 60 ≤ score then
    (RiskLevel.MEDIUM, "Partial compliance detected. Increase supervision and PPE enforcement.")
  else
    (RiskLevel.HIGH, "Critical safety risk identified. Immediate corrective action required.")

/-- The summary dictionary built at `app.py` lines 154–162. -/
structure SiteSummary where
  total : Nat
  helmet : Nat × Nat
  vest : Nat × Nat
  mask : Nat × Nat
  compliance : Nat
  risk : RiskLevel
  recommendation : String
deriving DecidableEq, Repr

/-- One labelled detection as delivered by the detector after label
normalization (`app.py` lines 45–48). -/
structure Detection where
  label : String
  box : Box
deriving DecidableEq, Repr

/-- The set `PPE_CLASSES` (`app.py` line 24). -/
def PPE_CLASSES : List String := ["hardhat", "safetyvest", "mask"]

/-- The set `VIOLATION_CLASSES` (`app.py` line 25). -/
def VIOLATION_CLASSES : List String := ["nomask"]

/-- The routing loop (`app.py` lines 43–55): each detection goes to the
person list, the PPE list or the violation list according to its label;
unrecognized labels are dropped. -/
def splitDetections (ds : List Detection) :
    List Box × List (String × Box) × List (String × Box) :=
  ds.foldl
    (fun acc d =>
      if d.label == "person" then (acc.1 ++ [d.box], acc.2.1, acc.2.2)
      else if PPE_CLASSES.contains d.label then
        (acc.1, acc.2.1 ++ [(d.label, d.box)], acc.2.2)
      else if VIOLATION_CLASSES.contains d.label then
        (acc.1, acc.2.1, acc.2.2 ++ [(d.label, d.box)])
      else acc)
    ([], [], [])

/-- The decision part of `process_image` (`app.py` lines 43–164): split
the detections, assess every person, accumulate the counters, and build
the site summary.  Image I/O and drawing are outside the engine. -/
def process_image (ds : List Detection) : List PersonAssessment × SiteSummary :=
  let split := splitDetections ds
  let persons := split.1
  let ppe := split.2.1
  let viols := split.2.2
  let assessments := persons.map (fun p => assessPerson p ppe viols)
  let c := assessments.foldl stepCounts ⟨0, 0, 0, 0, 0, 0⟩
  let compliance := complianceScore persons.length c
  let rr := riskOf compliance
  (assessments,
    { total := persons.length
      helmet := (c.helmet_yes, c.helmet_no)
      vest := (c.vest_yes, c.vest_no)
      mask := (c.mask_yes, c.mask_no)
      compliance := compliance
      risk := rr.1
      recommendation := rr.2 })

/-- The head region as the specification words it: the full horizontal
extent of the person box and the vertical band from the top of the box
down to `top + 0.35 * personHeight`, open on all four bounds, evaluated
in exact rational arithmetic on a candidate centroid `(cx, cy)`.  This
definition follows the specification text and is compared against the
code's `helmetMatches` test. -/
def specHeadRegion (p : Box) (cx cy : ℚ) : Prop :=
  (p.x1 : ℚ) < cx ∧ cx < (p.x2 : ℚ) ∧
  (p.y1 : ℚ) < cy ∧ cy < (p.y1 : ℚ) + 35 / 100 * ((p.y2 : ℚ) - (p.y1 : ℚ))

/-- Scenario A person box `(0, 0, 100, 200)`. -/
def demoPerson : Box := ⟨0, 0, 100, 200⟩

/-- Scenario A helmet box, centroid `(50, 20)` inside the head band. -/
def demoHelmet : Box := ⟨40, 10, 60, 30⟩

/-- Scenario A vest box, overlap ratio with the person close to 0.5. -/
def demoVest : Box := ⟨0, 0, 100, 100⟩

/-- Scenario A PPE list: one helmet and one vest. -/
def demoPPE : List (String × Box) := [("hardhat", demoHelmet), ("safetyvest", demoVest)]

/-- Scenario A detection list: one person, one helmet, one vest, no
mask or no-mask detections. -/
def demoDetections : List Detection :=
  [⟨"person", demoPerson⟩, ⟨"hardhat", demoHelmet⟩, ⟨"safetyvest", demoVest⟩]

/- ------------------------------------------------------------------ -/
/- Theorems                                                            -/
/- ------------------------------------------------------------------ -/

/-- The threshold test in propositional form. -/
theorem iouGtTenth_iff (a b : Box) : iouGtTenth a b = true ↔ (1 : ℚ) / 10 < iou a b := by
  simp [iouGtTenth]

/-- The test `has_nomask` holds exactly on a qualifying violation marker. -/
theorem hasNomask_iff (p : Box) (viols : List (String × Box)) :
    hasNomask p viols = true ↔
      ∃ it ∈ viols, it.1 = "nomask" ∧ (1 : ℚ) / 10 < iou p it.2 := by
  simp [hasNomask, List.any_eq_true, iouGtTenth]

/-- The test `has_mask` holds exactly on a qualifying mask item. -/
theorem hasMask_iff (p : Box) (ppe : List (String × Box)) :
    hasMask p ppe = true ↔
      ∃ it ∈ ppe, it.1 = "mask" ∧ (1 : ℚ) / 10 < iou p it.2 := by
  simp only [hasMask, maskItems, List.any_eq_true, List.mem_map, List.mem_filter,
    iouGtTenth, decide_eq_true_eq]
  constructor
  · rintro ⟨b, ⟨it, ⟨hmem, hlbl⟩, rfl⟩, hgt⟩
    exact ⟨it, hmem, by simpa using hlbl, hgt⟩
  · rintro ⟨it, hmem, hlbl, hgt⟩
    exact ⟨it.2, ⟨it, ⟨hmem, by simpa using hlbl⟩, rfl⟩, hgt⟩

/-- The test `has_vest` holds exactly on a qualifying vest item. -/
theorem hasVest_iff (p : Box) (ppe : List (String × Box)) :
    hasVest p ppe = true ↔
      ∃ it ∈ ppe, it.1 = "safetyvest" ∧ (1 : ℚ) / 10 < iou p it.2 := by
  simp [hasVest, List.any_eq_true, iouGtTenth]

/-- C9: With no PPE items and no violation markers, the engine still
produces a well-defined assessment: no helmet, no vest, mask state
UNKNOWN, confidence 0, verdict UNSAFE — for every person box. -/
theorem empty_evidence_graceful (p : Box) :
    assessPerson p [] [] =
      ⟨false, false, MaskState.UNKNOWN, 0, Verdict.UNSAFE⟩ := by
  simp [assessPerson, hasHelmet, hasVest, maskStateOf, hasMask, hasNomask,
    maskItems, matchedCategories, confidenceOf]

/-- C5: The risk tier is a step function of the compliance score with
inclusive lower bounds 85 (LOW) and 60 (MEDIUM), HIGH below, each tier
paired with its fixed recommendation string. -/
theorem risk_tier_thresholds (s : Nat) :
    (85 ≤ s → riskOf s =
      (RiskLevel.LOW, "Site is compliant. Maintain existing safety protocols.")) ∧
    (60 ≤ s → s < 85 → riskOf s =
      (RiskLevel.MEDIUM, "Partial compliance detected. Increase supervision and PPE enforcement.")) ∧
    (s < 60 → riskOf s =
      (RiskLevel.HIGH, "Critical safety risk identified. Immediate corrective action required.")) := by
  refine ⟨fun h => ?_, fun h1 h2 => ?_, fun h => ?_⟩
  · rw [riskOf, if_pos h]
  · rw [riskOf, if_neg (by omega), if_pos h1]
  · rw [riskOf, if_neg (by omega), if_neg (by omega)]

/-- Witness for `risk_tier_thresholds` at the boundary scores 85, 84,
60 and 59. -/
theorem risk_tier_thresholds_witness :
    riskOf 85 = (RiskLevel.LOW, "Site is compliant. Maintain existing safety protocols.") ∧
    riskOf 84 = (RiskLevel.MEDIUM, "Partial compliance detected. Increase supervision and PPE enforcement.") ∧
    riskOf 60 = (RiskLevel.MEDIUM, "Partial compliance detected. Increase supervision and PPE enforcement.") ∧
    riskOf 59 = (RiskLevel.HIGH, "Critical safety risk identified. Immediate corrective action required.") :=
  ⟨(risk_tier_thresholds 85).1 (by norm_num),
   (risk_tier_thresholds 84).2.1 (by norm_num) (by norm_num),
   (risk_tier_thresholds 60).2.1 (by norm_num) (by norm_num),
   (risk_tier_thresholds 59).2.2 (by norm_num)⟩

/-- The intersection term of `iou` is never negative. -/
theorem inter_nonneg (a b : Box) : 0 ≤ inter a b :=
  mul_nonneg (le_max_left 0 _) (le_max_left 0 _)

/-- A strictly positive intersection forces both boxes to have strictly
positive area, and is bounded by each of the two areas. -/
theorem inter_pos_bounds (a b : Box) (h : 0 < inter a b) :
    0 < area a ∧ 0 < area b ∧ inter a b ≤ area a ∧ inter a b ≤ area b := by
  set w := min a.x2 b.x2 - max a.x1 b.x1 with hw
  set v := min a.y2 b.y2 - max a.y1 b.y1 with hv
  have hx : 0 < max 0 w := by
    rcases (le_max_left 0 w).eq_or_lt with h1 | h1
    · exfalso
      rw [inter, ← hw, ← hv, ← h1, zero_mul] at h
      exact lt_irrefl 0 h
    · exact h1
  have hy : 0 < max 0 v := by
    rcases (le_max_left 0 v).eq_or_lt with h1 | h1
    · exfalso
      rw [inter, ← hw, ← hv, ← h1, mul_zero] at h
      exact lt_irrefl 0 h
    · exact h1
  have hwpos : 0 < w := by
    rcases lt_max_iff.mp hx with h1 | h1
    · exact absurd h1 (lt_irrefl 0)
    · exact h1
  have hvpos : 0 < v := by
    rcases lt_max_iff.mp hy with h1 | h1
    · exact absurd h1 (lt_irrefl 0)
    · exact h1
  have hinter : inter a b = w * v := by
    rw [inter, ← hw, ← hv, max_eq_right hwpos.le, max_eq_right hvpos.le]
  have hwa : w ≤ a.x2 - a.x1 := sub_le_sub (min_le_left _ _) (le_max_left _ _)
  have hva : v ≤ a.y2 - a.y1 := sub_le_sub (min_le_left _ _) (le_max_left _ _)
  have hwb : w ≤ b.x2 - b.x1 := sub_le_sub (min_le_right _ _) (le_max_right _ _)
  have hvb : v ≤ b.y2 - b.y1 := sub_le_sub (min_le_right _ _) (le_max_right _ _)
  have hia : inter a b ≤ area a := by
    rw [hinter, area]
    exact mul_le_mul hwa hva hvpos.le (by linarith)
  have hib : inter a b ≤ area b := by
    rw [hinter, area]
    exact mul_le_mul hwb hvb hvpos.le (by linarith)
  exact ⟨lt_of_lt_of_le h hia, lt_of_lt_of_le h hib, hia, hib⟩

/-- C8: The denominator of `iou` is never zero (the `1e-6` guard added
to an integer quantity cannot vanish), the ratio always lies in
`[0, 1]`, and a degenerate (zero- or negative-area) box forces an
overlap of exactly zero in the rational model. -/
theorem iou_guarded_in_unit_interval (a b : Box) :
    ((area a : ℚ) + (area b : ℚ) - (inter a b : ℚ) + eps ≠ 0) ∧
    0 ≤ iou a b ∧ iou a b ≤ 1 ∧
    ((area a ≤ 0 ∨ area b ≤ 0) → iou a b = 0) := by
  have hden : (area a : ℚ) + (area b : ℚ) - (inter a b : ℚ) + eps ≠ 0 := by
    intro h0
    have h1 : ((1000000 * (area a + area b - inter a b) + 1 : ℤ) : ℚ) = 0 := by
      push_cast
      rw [eps] at h0
      linarith
    have h2 : (1000000 * (area a + area b - inter a b) + 1 : ℤ) = 0 := by
      exact_mod_cast h1
    omega
  refine ⟨hden, ?_⟩
  rcases (inter_nonneg a b).eq_or_lt with hz | hpos
  · have hzero : iou a b = 0 := by
      rw [iou, ← hz]
      simp
    rw [hzero]
    exact ⟨le_refl 0, by norm_num, fun _ => rfl⟩
  · obtain ⟨haa, hab, hia, hib⟩ := inter_pos_bounds a b hpos
    have hepos : (0 : ℚ) < eps := by rw [eps]; norm_num
    have hquant : (inter a b : ℚ) ≤ (area a : ℚ) + (area b : ℚ) - (inter a b : ℚ) := by
      have h1 : (inter a b : ℚ) ≤ (area a : ℚ) := by exact_mod_cast hia
      have h2 : (inter a b : ℚ) ≤ (area b : ℚ) := by exact_mod_cast hib
      linarith
    have hipos : (0 : ℚ) < (inter a b : ℚ) := by exact_mod_cast hpos
    have hdpos : (0 : ℚ) < (area a : ℚ) + (area b : ℚ) - (inter a b : ℚ) + eps := by
      linarith
    refine ⟨div_nonneg hipos.le hdpos.le, ?_, ?_⟩
    · rw [iou, div_le_one hdpos]
      linarith
    · intro hdeg
      exfalso
      rcases hdeg with hda | hdb
      · exact absurd haa (not_lt.mpr hda)
      · exact absurd hab (not_lt.mpr hdb)

/-- Witness for the degenerate case of `iou_guarded_in_unit_interval`:
a zero-width box overlaps nothing. -/
theorem iou_degenerate_witness :
    area (⟨0, 0, 0, 10⟩ : Box) ≤ 0 ∧ iou ⟨0, 0, 0, 10⟩ ⟨0, 0, 5, 5⟩ = 0 :=
  ⟨by decide, (iou_guarded_in_unit_interval ⟨0, 0, 0, 10⟩ ⟨0, 0, 5, 5⟩).2.2.2 (Or.inl (by decide))⟩

/-- C3: A person's verdict is UNSAFE exactly when helmet, vest or mask
fails, and SAFE exactly when all three categories are satisfied. -/
theorem verdict_strict_and_rule (p : Box) (ppe viols : List (String × Box)) :
    ((assessPerson p ppe viols).verdict = Verdict.UNSAFE ↔
      ((assessPerson p ppe viols).has_helmet = false ∨
       (assessPerson p ppe viols).has_vest = false ∨
       (assessPerson p ppe viols).mask_state ≠ MaskState.MASK)) ∧
    ((assessPerson p ppe viols).verdict = Verdict.SAFE ↔
      ((assessPerson p ppe viols).has_helmet = true ∧
       (assessPerson p ppe viols).has_vest = true ∧
       (assessPerson p ppe viols).mask_state = MaskState.MASK)) := by
  unfold assessPerson
  by_cases hc : hasHelmet p ppe = false ∨ hasVest p ppe = false ∨
      maskStateOf p ppe viols ≠ MaskState.MASK
  · have hnc : ¬(hasHelmet p ppe = true ∧ hasVest p ppe = true ∧
        maskStateOf p ppe viols = MaskState.MASK) := by
      rintro ⟨h1, h2, h3⟩
      rcases hc with h | h | h
      · rw [h1] at h
        cases h
      · rw [h2] at h
        cases h
      · exact h h3
    rw [if_pos hc]
    simp only [iff_true_intro hc, iff_false_intro hnc]
    simp
  · have hc' := hc
    simp only [not_or, Bool.not_eq_false, not_not] at hc'
    rw [if_neg hc]
    simp [hc'.1, hc'.2.1, hc'.2.2]

/-- C4: The mask tri-state: NO_MASK exactly when a no-mask marker
overlaps the person above 0.1 (taking precedence), MASK exactly when no
marker does but a mask item overlaps above 0.1, UNKNOWN exactly when
neither kind of evidence exists. -/
theorem mask_tristate_precedence (p : Box) (ppe viols : List (String × Box)) :
    (maskStateOf p ppe viols = MaskState.NO_MASK ↔
      ∃ it ∈ viols, it.1 = "nomask" ∧ (1 : ℚ) / 10 < iou p it.2) ∧
    (maskStateOf p ppe viols = MaskState.MASK ↔
      ((¬ ∃ it ∈ viols, it.1 = "nomask" ∧ (1 : ℚ) / 10 < iou p it.2) ∧
       ∃ it ∈ ppe, it.1 = "mask" ∧ (1 : ℚ) / 10 < iou p it.2)) ∧
    (maskStateOf p ppe viols = MaskState.UNKNOWN ↔
      ((¬ ∃ it ∈ viols, it.1 = "nomask" ∧ (1 : ℚ) / 10 < iou p it.2) ∧
       ¬ ∃ it ∈ ppe, it.1 = "mask" ∧ (1 : ℚ) / 10 < iou p it.2)) := by
  rw [← hasNomask_iff, ← hasMask_iff]
  unfold maskStateOf
  cases hn : hasNomask p viols <;> cases hm : hasMask p ppe <;> simp [hn, hm]

/-- C10: A person's verdict is SAFE exactly when the person's
confidence score is 100; every UNSAFE person scores strictly less. -/
theorem safe_iff_confidence_100 (p : Box) (ppe viols : List (String × Box)) :
    (assessPerson p ppe viols).verdict = Verdict.SAFE ↔
      (assessPerson p ppe viols).confidence = 100 := by
  unfold assessPerson confidenceOf matchedCategories
  cases hh : hasHelmet p ppe <;> cases hv : hasVest p ppe <;>
    by_cases hm : maskStateOf p ppe viols = MaskState.MASK <;>
      simp [hh, hv, hm]

/-- Evaluation of the Scenario A person: helmet and vest present, no
mask evidence, confidence 66, verdict UNSAFE. -/
theorem demo_assessPerson_eval :
    assessPerson demoPerson demoPPE [] =
      ⟨true, true, MaskState.UNKNOWN, 66, Verdict.UNSAFE⟩ := by
  simp [assessPerson, hasHelmet, hasVest, maskStateOf, hasMask, hasNomask,
    maskItems, helmetMatches, matchedCategories, confidenceOf,
    iouGtTenth, iou, inter, area, eps, demoPerson, demoHelmet, demoVest, demoPPE]
  norm_num
  decide

/-- C1 (counterexample): the Scenario A person (helmet and vest present,
mask state UNKNOWN, two of three categories matched) receives
confidence 66, while `round(100 * 2 / 3)` is 67 — the code truncates
instead of rounding. -/
theorem confidence_two_of_three_truncates_to_66 :
    (assessPerson demoPerson demoPPE []).has_helmet = true ∧
    (assessPerson demoPerson demoPPE []).has_vest = true ∧
    (assessPerson demoPerson demoPPE []).mask_state = MaskState.UNKNOWN ∧
    (assessPerson demoPerson demoPPE []).confidence = 66 ∧
    round ((100 * 2 : ℚ) / 3) = 67 := by
  rw [demo_assessPerson_eval]
  refine ⟨rfl, rfl, rfl, rfl, ?_⟩
  rw [round_eq]
  norm_num

/-- C1 (amended): the per-person confidence is the floor
`100 * matchedCategories / 3` (Python `int()` truncation), so a person
with exactly two matched categories scores 66, not 67. -/
theorem confidence_is_floor_of_matched_thirds (p : Box) (ppe viols : List (String × Box)) :
    ((assessPerson p ppe viols).confidence =
      100 * ((if (assessPerson p ppe viols).has_helmet then 1 else 0) +
             (if (assessPerson p ppe viols).has_vest then 1 else 0) +
             (if (assessPerson p ppe viols).mask_state = MaskState.MASK then 1 else 0)) / 3) ∧
    ((assessPerson p ppe viols).has_helmet = true →
     (assessPerson p ppe viols).has_vest = true →
     (assessPerson p ppe viols).mask_state ≠ MaskState.MASK →
     (assessPerson p ppe viols).confidence = 66) := by
  unfold assessPerson confidenceOf matchedCategories
  cases hh : hasHelmet p ppe <;> cases hv : hasVest p ppe <;>
    by_cases hm : maskStateOf p ppe viols = MaskState.MASK <;>
      simp [hh, hv, hm]

/-- Witness for `confidence_is_floor_of_matched_thirds` at the
Scenario A person. -/
theorem confidence_is_floor_witness :
    (assessPerson demoPerson demoPPE []).confidence = 66 :=
  (confidence_is_floor_of_matched_thirds demoPerson demoPPE []).2
    (by rw [demo_assessPerson_eval])
    (by rw [demo_assessPerson_eval])
    (by rw [demo_assessPerson_eval]; decide)

/-- C6 (counterexample): for the person box `(0, 0, 100, 10)` the
helmet centroid `(50, 3)` lies strictly inside the specification's head
region (`3 < 0.35 * 10 = 3.5`), yet the code does not attribute the
helmet: its truncated head limit is `0 + int(3.5) = 3` and the strict
test `3 < 3` fails. -/
theorem helmet_interior_centroid_not_attributed :
    ((40 + 60 : Int) / 2 = 50) ∧ ((0 + 6 : Int) / 2 = 3) ∧
    specHeadRegion ⟨0, 0, 100, 10⟩ 50 3 ∧
    helmetMatches ⟨0, 0, 100, 10⟩ ⟨40, 0, 60, 6⟩ = false := by
  refine ⟨by decide, by decide, ?_, by decide⟩
  unfold specHeadRegion
  norm_num

/-- C6 (amended): the code attributes a helmet exactly when its integer
centroid satisfies the strict bounds against the truncated head limit
`top + int(0.35 * height)`; this test is sound for the specification's
open head region (an attributed centroid, in particular one exactly on
the boundary `y = top + 0.35 * height`, always lies strictly inside),
but not complete for it when `0.35 * height` is fractional. -/
theorem helmet_attribution_soundness (p h : Box) :
    (helmetMatches p h = true ↔
      (p.x1 < (h.x1 + h.x2) / 2 ∧ (h.x1 + h.x2) / 2 < p.x2 ∧
       p.y1 < (h.y1 + h.y2) / 2 ∧
       (h.y1 + h.y2) / 2 < p.y1 + Int.tdiv (35 * (p.y2 - p.y1)) 100)) ∧
    (helmetMatches p h = true →
      specHeadRegion p (((h.x1 + h.x2) / 2 : Int) : ℚ) (((h.y1 + h.y2) / 2 : Int) : ℚ)) := by
  constructor
  · simp [helmetMatches]
  · intro hm
    simp only [helmetMatches, decide_eq_true_eq] at hm
    obtain ⟨h1, h2, h3, h4⟩ := hm
    have hnn : 0 ≤ 35 * (p.y2 - p.y1) := by
      by_contra hneg
      push_neg at hneg
      have hmt : Int.tdiv (35 * (p.y2 - p.y1)) 100 ≤ 0 := by
        have heq : 35 * (p.y2 - p.y1) = -(-(35 * (p.y2 - p.y1))) := by ring
        rw [heq, Int.neg_tdiv]
        have : 0 ≤ Int.tdiv (-(35 * (p.y2 - p.y1))) 100 :=
          Int.tdiv_nonneg (by omega) (by norm_num)
        omega
      omega
    have htd : Int.tdiv (35 * (p.y2 - p.y1)) 100 = 35 * (p.y2 - p.y1) / 100 :=
      Int.tdiv_eq_ediv hnn (by norm_num)
    have hfloor : (100 : ℤ) * (35 * (p.y2 - p.y1) / 100) ≤ 35 * (p.y2 - p.y1) := by
      have hmod := Int.ediv_add_emod (35 * (p.y2 - p.y1)) 100
      have hpos := Int.emod_nonneg (35 * (p.y2 - p.y1)) (b := 100) (by norm_num)
      omega
    unfold specHeadRegion
    refine ⟨by exact_mod_cast h1, by exact_mod_cast h2, by exact_mod_cast h3, ?_⟩
    rw [htd] at h4
    have h4q : ((h.y1 + h.y2) / 2 : Int) < (p.y1 : ℤ) + 35 * (p.y2 - p.y1) / 100 := h4
    have hc1 : (((h.y1 + h.y2) / 2 : Int) : ℚ) <
        (p.y1 : ℚ) + ((35 * (p.y2 - p.y1) / 100 : Int) : ℚ) := by
      exact_mod_cast h4q
    have hc2 : ((35 * (p.y2 - p.y1) / 100 : Int) : ℚ) ≤ 35 / 100 * ((p.y2 : ℚ) - (p.y1 : ℚ)) := by
      rw [div_mul_eq_mul_div, le_div_iff₀ (by norm_num : (0:ℚ) < 100)]
      calc ((35 * (p.y2 - p.y1) / 100 : Int) : ℚ) * 100
          = (((35 * (p.y2 - p.y1) / 100) * 100 : Int) : ℚ) := by push_cast; ring
        _ ≤ ((35 * (p.y2 - p.y1) : Int) : ℚ) := by
            exact_mod_cast (by omega : (35 * (p.y2 - p.y1) / 100) * 100 ≤ 35 * (p.y2 - p.y1))
        _ = 35 * ((p.y2 : ℚ) - (p.y1 : ℚ)) := by push_cast; ring
    linarith

/-- Witness for `helmet_attribution_soundness` at the Scenario A person
and helmet, whose centroid `(50, 20)` is attributed. -/
theorem helmet_attribution_witness :
    specHeadRegion demoPerson
      (((demoHelmet.x1 + demoHelmet.x2) / 2 : Int) : ℚ)
      (((demoHelmet.y1 + demoHelmet.y2) / 2 : Int) : ℚ) :=
  (helmet_attribution_soundness demoPerson demoHelmet).2 (by decide)

/-- One counter update adds exactly one to each yes/no pair. -/
theorem stepCounts_sums (c : Counts) (a : PersonAssessment) :
    ((stepCounts c a).helmet_yes + (stepCounts c a).helmet_no =
      c.helmet_yes + c.helmet_no + 1) ∧
    ((stepCounts c a).vest_yes + (stepCounts c a).vest_no =
      c.vest_yes + c.vest_no + 1) ∧
    ((stepCounts c a).mask_yes + (stepCounts c a).mask_no =
      c.mask_yes + c.mask_no + 1) := by
  unfold stepCounts
  dsimp only
  refine ⟨?_, ?_, ?_⟩ <;> (split_ifs <;> omega)

/-- Folding the counter update over a list of assessments adds exactly
the list length to each yes/no pair. -/
theorem foldl_stepCounts_sums (l : List PersonAssessment) (c : Counts) :
    ((l.foldl stepCounts c).helmet_yes + (l.foldl stepCounts c).helmet_no =
      c.helmet_yes + c.helmet_no + l.length) ∧
    ((l.foldl stepCounts c).vest_yes + (l.foldl stepCounts c).vest_no =
      c.vest_yes + c.vest_no + l.length) ∧
    ((l.foldl stepCounts c).mask_yes + (l.foldl stepCounts c).mask_no =
      c.mask_yes + c.mask_no + l.length) := by
  induction l generalizing c with
  | nil => simp
  | cons a t ih =>
    obtain ⟨h1, h2, h3⟩ := ih (stepCounts c a)
    obtain ⟨s1, s2, s3⟩ := stepCounts_sums c a
    simp only [List.foldl_cons, List.length_cons]
    omega

/-- C7: In every site summary, the yes/no counters of each PPE category
sum to the number of persons: each person is classified exactly once
per category. -/
theorem category_counts_sum_invariant (ds : List Detection) :
    ((process_image ds).2.helmet.1 + (process_image ds).2.helmet.2 =
      (process_image ds).2.total) ∧
    ((process_image ds).2.vest.1 + (process_image ds).2.vest.2 =
      (process_image ds).2.total) ∧
    ((process_image ds).2.mask.1 + (process_image ds).2.mask.2 =
      (process_image ds).2.total) := by
  unfold process_image
  obtain ⟨h1, h2, h3⟩ := foldl_stepCounts_sums
    ((splitDetections ds).1.map
      (fun p => assessPerson p (splitDetections ds).2.1 (splitDetections ds).2.2))
    ⟨0, 0, 0, 0, 0, 0⟩
  simp only [List.length_map, Nat.zero_add] at h1 h2 h3
  simpa using ⟨h1, h2, h3⟩

/-- Evaluation of `process_image` on the Scenario A detection list: one
person, helmet and vest counted, mask missing, compliance 66, MEDIUM
risk. -/
theorem demo_process_image_eval :
    (process_image demoDetections).2 =
      ⟨1, (1, 0), (1, 0), (0, 1), 66, RiskLevel.MEDIUM,
        "Partial compliance detected. Increase supervision and PPE enforcement."⟩ := by
  simp [process_image, splitDetections, PPE_CLASSES, VIOLATION_CLASSES, demoDetections,
    assessPerson, hasHelmet, hasVest, maskStateOf, hasMask, hasNomask, maskItems,
    helmetMatches, matchedCategories, confidenceOf, stepCounts, complianceScore, riskOf,
    iouGtTenth, iou, inter, area, eps, demoPerson, demoHelmet, demoVest]
  norm_num
  decide

/-- C2 (counterexample): on the Scenario A scene (one person, helmet
and vest counted, mask missing) the code reports compliance 66, while
`round(100 * (1 + 1 + 0) / (3 * 1))` is 67 — the code truncates instead
of rounding. -/
theorem compliance_two_of_three_truncates_to_66 :
    (process_image demoDetections).2.total = 1 ∧
    (process_image demoDetections).2.helmet.1 = 1 ∧
    (process_image demoDetections).2.vest.1 = 1 ∧
    (process_image demoDetections).2.mask.1 = 0 ∧
    (process_image demoDetections).2.compliance = 66 ∧
    round ((100 * (1 + 1 + 0) : ℚ) / (3 * 1)) = 67 := by
  rw [demo_process_image_eval]
  refine ⟨rfl, rfl, rfl, rfl, rfl, ?_⟩
  rw [round_eq]
  norm_num

/-- With each yes/no pair summing to the person count, the compliance
score never exceeds 100. -/
theorem complianceScore_le_100 (n : Nat) (c : Counts)
    (hh : c.helmet_yes + c.helmet_no = n) (hv : c.vest_yes + c.vest_no = n)
    (hm : c.mask_yes + c.mask_no = n) :
    complianceScore n c ≤ 100 := by
  rw [complianceScore]
  split_ifs with h0
  · exact Nat.zero_le 100
  · have hsum : c.helmet_yes + c.vest_yes + c.mask_yes ≤ 3 * n := by omega
    have hb : (c.helmet_yes + c.vest_yes + c.mask_yes) * 100 ≤ 3 * n * 100 :=
      Nat.mul_le_mul_right 100 hsum
    have hle : (c.helmet_yes + c.vest_yes + c.mask_yes) * 100 / (3 * n) ≤
        3 * n * 100 / (3 * n) :=
      Nat.div_le_div_right hb
    have hcancel : 3 * n * 100 / (3 * n) = 100 :=
      Nat.mul_div_cancel_left 100 (by omega)
    rw [hcancel] at hle
    exact hle

/-- C2 (amended): the site compliance score is 0 when no person is
detected and always lies in `[0, 100]`.  For a non-empty scene the code
truncates the float quotient instead of rounding it (Scenario A scores
66, not 67 — the counterexample above); both conclusions stated here
also hold of the float computation, which stays within `[0, 100]` and
is exact at `N = 0`.  No exact closed formula is asserted for `N > 0`:
double rounding can drop the program's truncated value one below the
exact floor of `100 * (helmet_yes + vest_yes + mask_yes) / (3 * N)`
(e.g. 50 persons with 87 passed checks score 57 in Python, 58 in exact
arithmetic). -/
theorem compliance_score_zero_and_bounded (ds : List Detection) :
    ((process_image ds).2.total = 0 → (process_image ds).2.compliance = 0) ∧
    (process_image ds).2.compliance ≤ 100 := by
  unfold process_image
  dsimp only
  set l := (splitDetections ds).1.map
    (fun p => assessPerson p (splitDetections ds).2.1 (splitDetections ds).2.2) with hl
  set n := (splitDetections ds).1.length with hn
  obtain ⟨h1, h2, h3⟩ := foldl_stepCounts_sums l ⟨0, 0, 0, 0, 0, 0⟩
  simp only [Nat.zero_add] at h1 h2 h3
  have hlen : l.length = n := by rw [hl, hn, List.length_map]
  rw [hlen] at h1 h2 h3
  set c := l.foldl stepCounts ⟨0, 0, 0, 0, 0, 0⟩ with hc
  have hb := complianceScore_le_100 n c h1 h2 h3
  exact ⟨fun h0 => by rw [complianceScore, if_pos h0], hb⟩

/-- Witness for `compliance_score_zero_and_bounded`: an empty scene
scores 0, and the Scenario A scene stays within the bound. -/
theorem compliance_score_zero_and_bounded_witness :
    (process_image ([] : List Detection)).2.compliance = 0 ∧
    (process_image demoDetections).2.compliance ≤ 100 :=
  ⟨(compliance_score_zero_and_bounded []).1 rfl,
   (compliance_score_zero_and_bounded demoDetections).2⟩

end ConstructionSafety
